import Mathlib

/-!
Shallow embedding of the vmBackup backup-orchestration state machine
(`lib/vmBackupLib/stateMachine.c`).

The state machine is single-threaded and callback driven; each C entry point
(`VmBackupStart`, `VmBackupAbort`, `VmBackupSnapshotDone`, the poll callback
`VmBackupAsyncCallback`, `VmBackupFinalize`, `VmBackupSendEvent`,
`VmBackupReadConfig`) is modelled as a pure function from the session state,
a fresh-timer-id counter and an environment describing the outcomes of the
external collaborators (script runner, sync provider, RpcOut, stdio) to the
new (optional) session state, the updated counter and a trace of externally
visible actions (events sent to the VMX, provider capability invocations,
timer arm/cancel operations, suboperation release/cancel).

Memory management (`free`, `Util_SafeMalloc`) is modelled by value semantics;
allocation failures that the code handles only by falling back to a shorter
error message (`Str_Asprintf` in the poll callback) are modelled as
succeeding, matching the non-OOM executions.
-/

set_option linter.unusedVariables false

/-- Script phases handled by `VmBackupStartScripts` (VMBACKUP_SCRIPT_*). -/
inductive VmBackupScriptType
  | freeze
  | freezeFail
  | thaw
deriving DecidableEq, Repr

/-- Status of the in-flight asynchronous operation (`VmBackup_QueryStatus`). -/
inductive VmBackupOpStatus
  | pending
  | finished
  | error
deriving DecidableEq, Repr

/-- The only continuation callback registered by this file is
`VmBackupEnableSync` (installed by `VmBackupStart` as the continuation of the
freeze scripts); `state->callback` therefore ranges over this one value or
NULL. -/
inductive Callback
  | enableSync
deriving DecidableEq, Repr

/-- Names of the outbound lifecycle events (VMBACKUP_EVENT_*). -/
inductive EventName
  | reset
  | keepAlive
  | requestorDone
  | requestorError
  | requestorAbort
deriving DecidableEq, Repr

/-- Numeric codes of the `VmBackupStatus` enum. -/
def successCode : Nat := 0

def invalidStateCode : Nat := 1

def scriptErrorCode : Nat := 2

def syncErrorCode : Nat := 3

def remoteAbortCode : Nat := 4

def unexpectedErrorCode : Nat := 5

/-- Externally visible actions performed by the state machine: events sent to
the VMX, keep-alive / poll timer arm and cancel operations (timers carry the
fresh id handed out by the model's counter), suboperation cancel/release, and
invocations of the sync provider's capabilities. -/
inductive Act
  | emit (name : EventName) (code : Nat) (desc : String)
  | cancelKeepAlive (id : Nat)
  | scheduleKeepAlive (id : Nat)
  | cancelPollTimer (id : Nat)
  | schedulePollTimer (id : Nat) (period : Nat)
  | opCancel
  | opRelease
  | providerStart
  | providerAbort
  | providerSnapshotDone
  | scriptOpStart (ty : VmBackupScriptType)
deriving DecidableEq, Repr

/-- The `VmBackupState` structure.  `currentOp` holds the script type of the
in-flight script suboperation (the only suboperations created in
stateMachine.c); `scripts` models whether `state->scripts` is non-NULL (a
script set was loaded by the script-op machinery); `keepAlive` and
`timerEvent` hold the ids of the outstanding keep-alive and poll timers. -/
structure VmBackupState where
  pollPeriod : Nat
  currentOp : Option VmBackupScriptType
  currentOpName : String
  callback : Option Callback
  syncProviderRunning : Bool
  syncProviderFailed : Bool
  clientAborted : Bool
  snapshotDone : Bool
  forceRequeue : Bool
  scripts : Bool
  disabledTargets : List String
  generateManifests : Bool
  volumes : Option String
  keepAlive : Option Nat
  timerEvent : Option Nat
deriving DecidableEq, Repr

/-- `VmBackupSendEvent`: removes the outstanding keep-alive timer if any,
sends the event over RpcOut, then arms a fresh keep-alive timer
(`VMBACKUP_KEEP_ALIVE_PERIOD / 20`).  Returns the updated state, the updated
fresh-id counter, and the action trace. -/
def VmBackupSendEvent (s : VmBackupState) (nid : Nat) (name : EventName)
    (code : Nat) (desc : String) : VmBackupState × Nat × List Act :=
  let cancelActs : List Act :=
    match s.keepAlive with
    | some t => [Act.cancelKeepAlive t]
    | none => []
  ({ s with keepAlive := some nid }, nid + 1,
   cancelActs ++ [Act.emit name code desc, Act.scheduleKeepAlive nid])

/-- `VmBackupFinalize`: cancels and releases the in-flight suboperation if
any, sends a `RequestorDone` event with code `VMBACKUP_SUCCESS`, cancels the
poll timer and the keep-alive timer (including the one just armed by the done
event), frees the disabled-targets array and the state.  The session is
destroyed, so only the counter and the trace are returned. -/
def VmBackupFinalize (s : VmBackupState) (nid : Nat) : Nat × List Act :=
  let opActs : List Act :=
    match s.currentOp with
    | some _ => [Act.opCancel, Act.opRelease]
    | none => []
  let r := VmBackupSendEvent s nid EventName.requestorDone successCode ("")
  let s1 := r.1
  let timerActs : List Act :=
    (match s1.timerEvent with
     | some t => [Act.cancelPollTimer t]
     | none => []) ++
    (match s1.keepAlive with
     | some t => [Act.cancelKeepAlive t]
     | none => [])
  (r.2.1, opActs ++ r.2.2 ++ timerActs)

/-- Operation label chosen by `VmBackupStartScripts` for each script phase. -/
def opNameOf : VmBackupScriptType → String
  | VmBackupScriptType.freeze => "VmBackupOnFreeze"
  | VmBackupScriptType.freezeFail => "VmBackupOnFreezeFail"
  | VmBackupScriptType.thaw => "VmBackupOnThaw"

/-- `VmBackupStartScripts`.  Modelled from the spec: `VmBackupNewScriptOp` /
`VmBackup_SetCurrentOp` (the script-phase enqueue of section 4.3) are not in
src; on a successful start the new script run becomes the current
suboperation with the given continuation callback installed, and on failure
to start the state is left without a new suboperation, a `RequestorError`
event with code `VMBACKUP_SCRIPT_ERROR` is emitted and failure is reported to
the caller.  `startOk` is the environment's verdict on whether the script
operation could be created and started. -/
def VmBackupStartScripts (startOk : Bool) (ty : VmBackupScriptType)
    (cb : Option Callback) (s : VmBackupState) (nid : Nat) :
    Bool × VmBackupState × Nat × List Act :=
  if startOk then
    (true,
     { s with currentOp := some ty, currentOpName := opNameOf ty, callback := cb },
     nid, [Act.scriptOpStart ty])
  else
    let r := VmBackupSendEvent s nid EventName.requestorError scriptErrorCode
      ("Error when starting backup scripts.")
    (false, r.1, r.2.1, r.2.2)

/-- `VmBackupEnableSync`: invokes the sync provider's `start` capability;
on failure emits a `RequestorError` event with code `VMBACKUP_SYNC_ERROR` and
returns false; on success sets `syncProviderRunning` and returns true. -/
def VmBackupEnableSync (providerStartOk : Bool) (s : VmBackupState)
    (nid : Nat) : Bool × VmBackupState × Nat × List Act :=
  if providerStartOk then
    (true, { s with syncProviderRunning := true }, nid, [Act.providerStart])
  else
    let r := VmBackupSendEvent s nid EventName.requestorError syncErrorCode
      ("Error when enabling the sync provider.")
    (false, r.1, r.2.1, Act.providerStart :: r.2.2)

/-- Status values of `StdIO_ReadNextLine`. -/
inductive StdIoStatus
  | success
  | eof
  | err
deriving DecidableEq, Repr

/-- Environment for `VmBackupReadConfig`: outcomes of `GuestApp_GetConfPath`,
`Str_Asprintf`, `File_IsFile`, `Posix_Fopen`, the successive successfully
read lines, the status that terminates the read loop after those lines, and
which `TargetArray_Push` calls succeed. -/
structure ReadConfigEnv where
  configDirOk : Bool
  cfgPathOk : Bool
  isFile : Bool
  fopenOk : Bool
  lines : List String
  finalStatus : StdIoStatus
  pushOk : Nat → Bool

/-- First character of a line that is neither a space nor a tab, if any
(the comment/blank test loop of `VmBackupReadConfig`). -/
def firstNonBlank : List Char → Option Char
  | [] => none
  | c :: rest => if c = ' ' ∨ c = '\t' then firstNonBlank rest else some c

/-- Whether `VmBackupReadConfig` skips a line: the line is blank (only spaces
and tabs) or its first non-blank character is a comment marker. -/
def lineSkipped (l : String) : Bool :=
  match firstNonBlank l.data with
  | none => true
  | some c => c = '#'

/-- The read loop of `VmBackupReadConfig`: processes lines in order, skipping
blank/comment lines and pushing the rest; returns the pushed entries and
whether a push failed (which breaks the loop with the line freed). -/
def readConfigLines (pushOk : Nat → Bool) :
    List String → Nat → List String → List String × Bool
  | [], _, acc => (acc, false)
  | l :: rest, n, acc =>
    if lineSkipped l then readConfigLines pushOk rest n acc
    else if pushOk n then readConfigLines pushOk rest (n + 1) (acc ++ [l])
    else (acc, true)

/-- `VmBackupReadConfig`: loads `vmbackup.conf` into the disabled-targets
array.  Returns the success flag and the resulting array contents.  The two
early `return FALSE` paths (conf-path or path-string allocation failure)
bypass the `exit` cleanup and leave the array as it was; every failure that
reaches the `exit` label frees all accumulated entries and reinitializes the
array to empty.  A missing config file is success with the array untouched. -/
def VmBackupReadConfig (env : ReadConfigEnv) (targets0 : List String) :
    Bool × List String :=
  if !env.configDirOk then (false, targets0)
  else if !env.cfgPathOk then (false, targets0)
  else if !env.isFile then (true, targets0)
  else if !env.fopenOk then (false, [])
  else
    let r := readConfigLines env.pushOk env.lines 0 []
    let ret := if r.2 then false else env.finalStatus = StdIoStatus.eof
    if ret then (true, targets0 ++ r.1) else (false, [])

/-- Environment for one poll tick: the status the current suboperation
reports (consulted only when one is in flight), whether the sync provider's
`start` capability succeeds (consulted only if `VmBackupEnableSync` runs),
and whether a `VmBackupStartScripts` call made by this tick succeeds. -/
structure TickEnv where
  opStatus : VmBackupOpStatus
  providerStartOk : Bool
  scriptStartOk : Bool
deriving Repr

/-- Result of the current-operation check at the top of
`VmBackupAsyncCallback`: either jump to the `exit` label with the given
finalize verdict, or fall through to the callback drain loop. -/
inductive TickOpPhase
  | exitNow (s : VmBackupState) (finalize : Bool) (nid : Nat) (acts : List Act)
  | continueDrain (s : VmBackupState) (nid : Nat) (acts : List Act)

/-- The current-operation check of `VmBackupAsyncCallback` (lines 387-435):
a pending operation suspends the tick; a finished one is released; a failed
one is reported with a `RequestorError`/`VMBACKUP_UNEXPECTED_ERROR` event
naming the operation, released, and — if the sync provider is not running
and a script set exists — followed by enqueuing the freeze-fail scripts with
no continuation, finalizing only if that enqueue fails. -/
def tickCheckOp (env : TickEnv) (s : VmBackupState) (nid : Nat) : TickOpPhase :=
  match s.currentOp with
  | none => TickOpPhase.continueDrain s nid []
  | some _ =>
    match env.opStatus with
    | VmBackupOpStatus.pending => TickOpPhase.exitNow s false nid []
    | VmBackupOpStatus.finished =>
      TickOpPhase.continueDrain { s with currentOp := none } nid [Act.opRelease]
    | VmBackupOpStatus.error =>
      let msg := "Asynchronous operation failed: " ++ s.currentOpName ++ "\n"
      let r := VmBackupSendEvent s nid EventName.requestorError unexpectedErrorCode msg
      let s2 : VmBackupState := { r.1 with currentOp := none }
      let acts := r.2.2 ++ [Act.opRelease]
      if !s2.syncProviderRunning && s2.scripts then
        let s3 : VmBackupState := { s2 with callback := none }
        let r2 := VmBackupStartScripts env.scriptStartOk VmBackupScriptType.freezeFail
          none s3 r.2.1
        TickOpPhase.exitNow r2.2.1 (!r2.1) r2.2.2.1 (acts ++ r2.2.2.2)
      else
        TickOpPhase.exitNow s2 false r.2.1 acts

/-- Result of the callback drain loop: either a `goto exit` taken from inside
the loop (a callback returned true after scheduling a suboperation or with
`forceRequeue` set), or the loop ran to completion with the resulting state
and the `finalize` value last assigned inside the loop. -/
inductive TickDrainPhase
  | suspendExit (s : VmBackupState) (nid : Nat) (acts : List Act)
  | drained (s : VmBackupState) (finalize : Bool) (nid : Nat) (acts : List Act)

/-- The callback drain loop of `VmBackupAsyncCallback` (lines 441-461).  The
only callback value in this file is `VmBackupEnableSync`, which never
installs another callback, so the loop body runs at most once: the callback
is cleared, invoked, and on a false return the pending-finalize verdict is
computed and `syncProviderFailed` is assigned `syncProviderRunning`. -/
def tickDrain (env : TickEnv) (s : VmBackupState) (nid : Nat) : TickDrainPhase :=
  match s.callback with
  | none => TickDrainPhase.drained s false nid []
  | some Callback.enableSync =>
    let s0 : VmBackupState := { s with callback := none }
    let r := VmBackupEnableSync env.providerStartOk s0 nid
    let s1 := r.2.1
    if r.1 then
      if s1.currentOp.isSome || s1.forceRequeue then
        TickDrainPhase.suspendExit s1 r.2.2.1 r.2.2.2
      else
        TickDrainPhase.drained s1 false r.2.2.1 r.2.2.2
    else
      let fin := s1.syncProviderFailed ∨ !s1.syncProviderRunning
      let s2 : VmBackupState := { s1 with syncProviderFailed := s1.syncProviderRunning }
      TickDrainPhase.drained s2 fin r.2.2.1 r.2.2.2

/-- The `exit` label of `VmBackupAsyncCallback`: finalize the session, or
clear `forceRequeue` and re-arm the poll timer at the current poll period. -/
def tickExit (s : VmBackupState) (fin : Bool) (nid : Nat) (acts : List Act) :
    Option VmBackupState × Nat × List Act :=
  if fin then
    let r := VmBackupFinalize s nid
    (none, r.1, acts ++ r.2)
  else
    (some { s with forceRequeue := false, timerEvent := some nid },
     nid + 1, acts ++ [Act.schedulePollTimer nid s.pollPeriod])

/-- `VmBackupAsyncCallback`: one poll tick.  Clears the fired poll timer,
checks the in-flight suboperation, drains the callback, then either
concludes the sync provider (clearing `syncProviderRunning`, setting the
poll period to 100 and enqueuing freeze-fail or thaw scripts) or computes
the final finalize verdict, and finishes at the `exit` label. -/
def VmBackupAsyncCallback (env : TickEnv) (s0 : VmBackupState) (nid0 : Nat) :
    Option VmBackupState × Nat × List Act :=
  let s : VmBackupState := { s0 with timerEvent := none }
  match tickCheckOp env s nid0 with
  | TickOpPhase.exitNow s1 fin nid1 acts1 => tickExit s1 fin nid1 acts1
  | TickOpPhase.continueDrain s1 nid1 acts1 =>
    match tickDrain env s1 nid1 with
    | TickDrainPhase.suspendExit s2 nid2 acts2 =>
      tickExit s2 false nid2 (acts1 ++ acts2)
    | TickDrainPhase.drained s2 fin nid2 acts2 =>
      if s2.syncProviderRunning &&
         (s2.snapshotDone || s2.syncProviderFailed || s2.clientAborted) &&
         s2.callback.isNone then
        let s3 : VmBackupState :=
          { s2 with syncProviderRunning := false, pollPeriod := 100 }
        let ty := if s3.syncProviderFailed || s3.clientAborted then
            VmBackupScriptType.freezeFail
          else VmBackupScriptType.thaw
        let r := VmBackupStartScripts env.scriptStartOk ty none s3 nid2
        tickExit r.2.1 (!r.1) r.2.2.1 (acts1 ++ acts2 ++ r.2.2.2)
      else
        let fin2 := !s2.syncProviderRunning && (s2.callback.isNone || s2.clientAborted)
        tickExit s2 fin2 nid2 (acts1 ++ acts2)

/-- Environment for `VmBackupStart`: the parsed argument blob (the
`StrUtil_GetNextIntToken` manifests flag and the trailing volume list,
abstracted to their parsed outcome), the config-load environment, and
whether starting the freeze scripts succeeds. -/
structure StartEnv where
  genManifests : Option Bool
  volumes : Option String
  cfg : ReadConfigEnv
  scriptStartOk : Bool

/-- The freshly `memset`-zeroed backup state built by `VmBackupStart`, with
`SendEvent` installed and `pollPeriod` set to 100 and the disabled-targets
array initialized empty. -/
def initialBackupState : VmBackupState where
  pollPeriod := 100
  currentOp := none
  currentOpName := ""
  callback := none
  syncProviderRunning := false
  syncProviderFailed := false
  clientAborted := false
  snapshotDone := false
  forceRequeue := false
  scripts := false
  disabledTargets := []
  generateManifests := false
  volumes := none
  keepAlive := none
  timerEvent := none

/-- `VmBackupStart`: rejected without touching anything if a session already
exists; otherwise builds the zeroed state, parses the argument blob, loads
the config (failing the command on load failure), sends the `Reset` event,
starts the freeze scripts with `VmBackupEnableSync` as continuation (failing
the command if that fails), and arms the first poll tick.  The first result
component is the RpcIn (success, message) pair. -/
def VmBackupStart (env : StartEnv) (g : Option VmBackupState) (nid : Nat) :
    (Bool × String) × Option VmBackupState × Nat × List Act :=
  match g with
  | some s => ((false, "Backup operation already in progress."), some s, nid, [])
  | none =>
    let s0 : VmBackupState :=
      { initialBackupState with
        generateManifests := env.genManifests.getD false
        volumes := env.volumes }
    let rc := VmBackupReadConfig env.cfg s0.disabledTargets
    if !rc.1 then
      ((false, "Error when reading configuration file."), none, nid, [])
    else
      let s1 : VmBackupState := { s0 with disabledTargets := rc.2 }
      let r := VmBackupSendEvent s1 nid EventName.reset successCode ("")
      let r2 := VmBackupStartScripts env.scriptStartOk VmBackupScriptType.freeze
        (some Callback.enableSync) r.1 r.2.1
      if !r2.1 then
        ((false, "Error initializing backup."), none, r2.2.2.1, r.2.2 ++ r2.2.2.2)
      else
        let s3 := r2.2.1
        ((true, ""), some { s3 with timerEvent := some r2.2.2.1 }, r2.2.2.1 + 1,
         r.2.2 ++ r2.2.2.2 ++ [Act.schedulePollTimer r2.2.2.1 s3.pollPeriod])

/-- `VmBackupAbort`: fails with "no backup in progress" if no session exists;
otherwise cancels and releases the in-flight suboperation (clearing the
handle), invokes the provider's `abort` capability if it is running, sets
`clientAborted` and emits the `RequestorAbort` event with code
`VMBACKUP_REMOTE_ABORT`.  It never calls `VmBackupFinalize`. -/
def VmBackupAbort (g : Option VmBackupState) (nid : Nat) :
    (Bool × String) × Option VmBackupState × Nat × List Act :=
  match g with
  | none => ((false, "Error: no backup in progress"), none, nid, [])
  | some s =>
    let opActs : List Act :=
      match s.currentOp with
      | some _ => [Act.opCancel, Act.opRelease]
      | none => []
    let s1 : VmBackupState := { s with currentOp := none }
    let abActs : List Act :=
      if s1.syncProviderRunning then [Act.providerAbort] else []
    let s2 : VmBackupState := { s1 with clientAborted := true }
    let r := VmBackupSendEvent s2 nid EventName.requestorAbort remoteAbortCode
      ("Remote abort.")
    ((true, ""), some r.1, r.2.1, opActs ++ abActs ++ r.2.2)

/-- `VmBackupSnapshotDone`: fails with "no backup in progress" if no session
exists; otherwise invokes the provider's `snapshotDone` capability
(`providerOk` is its verdict); on capability failure sets
`syncProviderFailed` and emits a `RequestorError`/`VMBACKUP_SYNC_ERROR`
event, on success sets `snapshotDone`; in both cases the command itself
returns success. -/
def VmBackupSnapshotDone (providerOk : Bool) (g : Option VmBackupState)
    (nid : Nat) : (Bool × String) × Option VmBackupState × Nat × List Act :=
  match g with
  | none => ((false, "Error: no backup in progress"), none, nid, [])
  | some s =>
    if providerOk then
      ((true, ""), some { s with snapshotDone := true }, nid,
       [Act.providerSnapshotDone])
    else
      let s1 : VmBackupState := { s with syncProviderFailed := true }
      let r := VmBackupSendEvent s1 nid EventName.requestorError syncErrorCode
        ("Error when notifying the sync provider.")
      ((true, ""), some r.1, r.2.1, Act.providerSnapshotDone :: r.2.2)

/-- One inbound stimulus delivered to a live session: a poll tick with its
environment, the abort command, or the snapshot-done command with the
provider's verdict. -/
inductive Cmd
  | tick (env : TickEnv)
  | abortCmd
  | snapDone (providerOk : Bool)

/-- Applies one stimulus to a live session. -/
def stepCmd : Cmd → VmBackupState → Nat → Option VmBackupState × Nat × List Act
  | Cmd.tick env, s, nid => VmBackupAsyncCallback env s nid
  | Cmd.abortCmd, s, nid =>
    let r := VmBackupAbort (some s) nid
    (r.2.1, r.2.2.1, r.2.2.2)
  | Cmd.snapDone ok, s, nid =>
    let r := VmBackupSnapshotDone ok (some s) nid
    (r.2.1, r.2.2.1, r.2.2.2)

/-- Runs a sequence of stimuli against a live session, accumulating the
action trace; the run stops at session teardown (once the state is gone the
remaining commands would be `NotRunning` no-ops). -/
def runCmds : List Cmd → VmBackupState → Nat → Option VmBackupState × Nat × List Act
  | [], s, nid => (some s, nid, [])
  | c :: cs, s, nid =>
    match stepCmd c s nid with
    | (none, nid1, acts) => (none, nid1, acts)
    | (some s1, nid1, acts) =>
      let r := runCmds cs s1 nid1
      (r.1, r.2.1, acts ++ r.2.2)

/-- The event names emitted in an action trace, in order. -/
def emittedNames (acts : List Act) : List EventName :=
  acts.filterMap fun a =>
    match a with
    | Act.emit n _ _ => some n
    | _ => none

/-- Number of events with the given name in a trace. -/
def countEvent (n : EventName) (acts : List Act) : Nat :=
  (emittedNames acts).count n

/-- The name of the last event emitted in a trace, if any. -/
def lastEmitName (acts : List Act) : Option EventName :=
  (emittedNames acts).getLast?

/-- Whether an event name is terminal (`RequestorDone`, `RequestorError` or
`RequestorAbort`). -/
def isTerminalName : EventName → Bool
  | EventName.requestorDone => true
  | EventName.requestorError => true
  | EventName.requestorAbort => true
  | _ => false

/-- Number of terminal events in a trace. -/
def terminalCount (acts : List Act) : Nat :=
  (emittedNames acts).countP isTerminalName

/-- Folds the keep-alive timer effects of a trace over a set of outstanding
keep-alive timers: `scheduleKeepAlive` adds a timer, `cancelKeepAlive`
removes it, everything else is ignored. -/
def kaLiveStep (live : List Nat) : Act → List Nat
  | Act.scheduleKeepAlive id => live ++ [id]
  | Act.cancelKeepAlive id => live.erase id
  | _ => live

/-- Outstanding keep-alive timers after a trace, starting from `live`. -/
def kaLiveAfter (live : List Nat) (acts : List Act) : List Nat :=
  acts.foldl kaLiveStep live

/-- The outstanding keep-alive timer recorded in the state, as a list. -/
def kaOf (s : VmBackupState) : List Nat :=
  match s.keepAlive with
  | some t => [t]
  | none => []

/-! ### Shared fixtures -/

/-- A successful-start environment: empty argument products, a missing config
file (success with empty targets), and script start succeeding. -/
def startEnvOk : StartEnv where
  genManifests := some false
  volumes := none
  cfg :=
    { configDirOk := true
      cfgPathOk := true
      isFile := false
      fopenOk := true
      lines := []
      finalStatus := StdIoStatus.eof
      pushOk := fun _ => true }
  scriptStartOk := true

/-- The session state right after a successful `VmBackupStart` under
`startEnvOk`: freeze scripts in flight with `VmBackupEnableSync` as
continuation, keep-alive timer 0 armed by the Reset event and poll timer 1
armed. -/
def postStartState : VmBackupState :=
  ((VmBackupStart startEnvOk none 0).2.1).getD initialBackupState

/-! ### C3 -/

/-- C3: for every state in which a session already exists, the Start command
returns failure (already running) and leaves every field of the existing
session unchanged (it performs no actions at all). -/
theorem c3_start_rejected_when_session_exists :
    ∀ (env : StartEnv) (s : VmBackupState) (nid : Nat),
      VmBackupStart env (some s) nid =
        ((false, "Backup operation already in progress."), some s, nid, []) := by
  intro env s nid
  rfl

/-! ### C7 -/

/-- C7: `VmBackupSnapshotDone` fails if and only if no session exists; with a
session it invokes the provider's `snapshotDone` capability, on capability
failure sets `syncProviderFailed` and emits an error event, on capability
success sets `snapshotDone`, and in both cases returns success. -/
theorem c7_snapshot_done_contract :
    ∀ (ok : Bool) (nid : Nat),
      ((VmBackupSnapshotDone ok none nid).1.1 = false) ∧
      ∀ s : VmBackupState,
        ((VmBackupSnapshotDone ok (some s) nid).1.1 = true) ∧
        (Act.providerSnapshotDone ∈ (VmBackupSnapshotDone ok (some s) nid).2.2.2) ∧
        (ok = true →
          (VmBackupSnapshotDone ok (some s) nid).2.1 =
            some { s with snapshotDone := true } ∧
          countEvent EventName.requestorError
            (VmBackupSnapshotDone ok (some s) nid).2.2.2 = 0) ∧
        (ok = false →
          ∃ s', (VmBackupSnapshotDone ok (some s) nid).2.1 = some s' ∧
            s'.syncProviderFailed = true ∧ s'.snapshotDone = s.snapshotDone ∧
            countEvent EventName.requestorError
              (VmBackupSnapshotDone ok (some s) nid).2.2.2 = 1) := by
  intro ok nid
  constructor
  · cases ok <;> rfl
  · intro s
    cases ok with
    | false =>
      refine ⟨rfl, ?_, ?_, ?_⟩
      · cases h : s.keepAlive <;>
          simp [VmBackupSnapshotDone, VmBackupSendEvent, h]
      · intro hc; exact absurd hc (by simp)
      · intro _
        refine ⟨_, rfl, rfl, rfl, ?_⟩
        cases h : s.keepAlive <;>
          simp [VmBackupSnapshotDone, VmBackupSendEvent, h, countEvent, emittedNames]
    | true =>
      refine ⟨rfl, ?_, ?_, ?_⟩
      · simp [VmBackupSnapshotDone]
      · intro _
        exact ⟨rfl, by simp [VmBackupSnapshotDone, countEvent, emittedNames]⟩
      · intro hc; exact absurd hc (by simp)

/-- Witness for C7 at a concrete input: no-session failure and the
capability-failure behavior at `postStartState`. -/
theorem c7_witness :
    ((VmBackupSnapshotDone false none 0).1.1 = false) ∧
    ∃ s', (VmBackupSnapshotDone false (some postStartState) 0).2.1 = some s' ∧
      s'.syncProviderFailed = true ∧ s'.snapshotDone = postStartState.snapshotDone ∧
      countEvent EventName.requestorError
        (VmBackupSnapshotDone false (some postStartState) 0).2.2.2 = 1 :=
  ⟨(c7_snapshot_done_contract false 0).1,
   ((((c7_snapshot_done_contract false 0).2 postStartState).2.2).2) rfl⟩

/-! ### C10 -/

/-- C10: whenever the config loader returns failure on a freshly initialized
(empty) disabled-targets array — as on every call, since `VmBackupStart`
initializes the array immediately before loading — the resulting array is
empty and initialized, exactly as if no config had been read; every entry
accumulated before the failure has been freed (is gone from the array). -/
theorem c10_config_failure_resets_targets :
    ∀ env : ReadConfigEnv, (VmBackupReadConfig env []).1 = false →
      (VmBackupReadConfig env []).2 = [] := by
  intro env h
  unfold VmBackupReadConfig at h ⊢
  dsimp only at h ⊢
  split_ifs at h ⊢ <;> simp_all

/-- Witness for C10: a conf-path lookup failure yields load failure with the
array left empty. -/
theorem c10_witness :
    (VmBackupReadConfig
        { configDirOk := false
          cfgPathOk := true
          isFile := false
          fopenOk := true
          lines := []
          finalStatus := StdIoStatus.eof
          pushOk := fun _ => true } []).1 = false ∧
    (VmBackupReadConfig
        { configDirOk := false
          cfgPathOk := true
          isFile := false
          fopenOk := true
          lines := []
          finalStatus := StdIoStatus.eof
          pushOk := fun _ => true } []).2 = [] :=
  ⟨rfl, c10_config_failure_resets_targets _ rfl⟩

/-! ### Helper lemmas about the drain loop -/

/-- After the drain loop runs to completion no pending callback remains:
the callback is cleared before being invoked and `VmBackupEnableSync` never
installs another one. -/
theorem tickDrain_callback_none :
    ∀ (env : TickEnv) (s : VmBackupState) (nid : Nat) (s2 : VmBackupState)
      (fin : Bool) (nid2 : Nat) (acts2 : List Act),
      tickDrain env s nid = TickDrainPhase.drained s2 fin nid2 acts2 →
      s2.callback = none := by
  intro env s nid s2 fin nid2 acts2 h
  unfold tickDrain at h
  cases hcb : s.callback with
  | none =>
    rw [hcb] at h
    cases h
    exact hcb
  | some cb =>
    cases cb
    rw [hcb] at h
    dsimp only at h
    cases hok : env.providerStartOk with
    | true =>
      simp only [VmBackupEnableSync, hok, if_true] at h
      split at h
      · cases h
      · cases h; rfl
    | false =>
      simp only [VmBackupEnableSync, hok, Bool.false_eq_true, if_false] at h
      cases h; rfl

/-! ### C9 -/

/-- C9: every outbound lifecycle event first cancels any outstanding
keep-alive timer (the cancel is the very first action) and then schedules a
new one (the schedule is the very last action), leaving exactly the new
timer outstanding; and after `VmBackupFinalize` completes no keep-alive
timer is outstanding, so no heartbeat fires after session teardown. -/
theorem c9_keepalive_timer_discipline :
    ∀ (s : VmBackupState) (nid : Nat) (name : EventName) (code : Nat) (desc : String),
      (∀ t, s.keepAlive = some t →
        ((VmBackupSendEvent s nid name code desc).2.2).head? =
          some (Act.cancelKeepAlive t)) ∧
      ((VmBackupSendEvent s nid name code desc).2.2).getLast? =
        some (Act.scheduleKeepAlive nid) ∧
      kaLiveAfter (kaOf s) (VmBackupSendEvent s nid name code desc).2.2 = [nid] ∧
      kaLiveAfter (kaOf s) (VmBackupFinalize s nid).2 = [] := by
  intro s nid name code desc
  refine ⟨?_, ?_, ?_, ?_⟩
  · intro t ht
    simp [VmBackupSendEvent, ht]
  · cases ht : s.keepAlive <;> simp [VmBackupSendEvent, ht]
  · cases ht : s.keepAlive <;>
      simp [VmBackupSendEvent, ht, kaLiveAfter, kaLiveStep, kaOf]
  · cases ht : s.keepAlive <;> cases hop : s.currentOp <;> cases htv : s.timerEvent <;>
      simp [VmBackupFinalize, VmBackupSendEvent, ht, hop, htv,
        kaLiveAfter, kaLiveStep, kaOf]

/-- Witness for C9 at `postStartState` (outstanding keep-alive timer 0): the
event's first action cancels timer 0, and finalize leaves no outstanding
keep-alive timer. -/
theorem c9_witness :
    ((VmBackupSendEvent postStartState 5 EventName.keepAlive 0 ("")).2.2).head? =
      some (Act.cancelKeepAlive 0) ∧
    kaLiveAfter (kaOf postStartState) (VmBackupFinalize postStartState 5).2 = [] :=
  ⟨(c9_keepalive_timer_discipline postStartState 5 EventName.keepAlive 0 ("")).1 0 rfl,
   (c9_keepalive_timer_discipline postStartState 5 EventName.keepAlive 0 ("")).2.2.2⟩

/-! ### C4 -/

/-- C4 (amended): the Abort command, when a session exists, immediately
cancels and releases the in-flight suboperation (clearing the handle), sets
`clientAborted`, invokes the sync provider's abort capability exactly when
the provider is running, emits one `RequestorAbort` event, and does not
itself finalize the session (the session survives and no `RequestorDone` is
emitted); finalization is deferred to a subsequent poll tick. -/
theorem c4_abort_behavior :
    ∀ (s : VmBackupState) (nid : Nat),
      ∃ s', (VmBackupAbort (some s) nid).2.1 = some s' ∧
        s'.clientAborted = true ∧
        s'.currentOp = none ∧
        s'.syncProviderRunning = s.syncProviderRunning ∧
        (Act.providerAbort ∈ (VmBackupAbort (some s) nid).2.2.2 ↔
          s.syncProviderRunning = true) ∧
        (s.currentOp ≠ none →
          Act.opCancel ∈ (VmBackupAbort (some s) nid).2.2.2 ∧
          Act.opRelease ∈ (VmBackupAbort (some s) nid).2.2.2) ∧
        countEvent EventName.requestorDone (VmBackupAbort (some s) nid).2.2.2 = 0 ∧
        countEvent EventName.requestorAbort (VmBackupAbort (some s) nid).2.2.2 = 1 := by
  intro s nid
  refine ⟨_, rfl, rfl, rfl, rfl, ?_, ?_, ?_, ?_⟩
  · cases hop : s.currentOp <;> cases hr : s.syncProviderRunning <;>
      cases ht : s.keepAlive <;>
      simp [VmBackupAbort, VmBackupSendEvent, hop, hr, ht]
  · intro hop'
    cases hop : s.currentOp with
    | none => exact absurd hop hop'
    | some _ =>
      cases hr : s.syncProviderRunning <;> cases ht : s.keepAlive <;>
        simp [VmBackupAbort, VmBackupSendEvent, hop, hr, ht]
  · cases hop : s.currentOp <;> cases hr : s.syncProviderRunning <;>
      cases ht : s.keepAlive <;>
      simp [VmBackupAbort, VmBackupSendEvent, hop, hr, ht, countEvent, emittedNames]
  · cases hop : s.currentOp <;> cases hr : s.syncProviderRunning <;>
      cases ht : s.keepAlive <;>
      simp [VmBackupAbort, VmBackupSendEvent, hop, hr, ht, countEvent, emittedNames]

/-- Counterexample for C4 as stated: at the post-start state (freeze scripts
in flight) the Abort command itself releases the in-flight suboperation —
the trace of `VmBackupAbort` contains the release and the handle is cleared
inside Abort, not on a later poll tick. -/
theorem c4_counterexample :
    postStartState.currentOp = some VmBackupScriptType.freeze ∧
    Act.opRelease ∈ (VmBackupAbort (some postStartState) 2).2.2.2 ∧
    ((VmBackupAbort (some postStartState) 2).2.1).map VmBackupState.currentOp =
      some none := by
  decide

/-- Witness for C4's amended theorem at `postStartState`. -/
theorem c4_witness :
    Act.opCancel ∈ (VmBackupAbort (some postStartState) 2).2.2.2 ∧
    Act.opRelease ∈ (VmBackupAbort (some postStartState) 2).2.2.2 :=
  ((c4_abort_behavior postStartState 2).choose_spec.2.2.2.2.2.1) (by decide)

/-! ### C2 -/

/-- C2: on a poll tick that reaches the post-drain provider check with the
sync provider running, at least one of snapshot-done / provider-failed /
client-aborted set and no pending callback, the tick clears
`syncProviderRunning` and enqueues freeze-fail scripts (if the provider
failed or the client aborted) or thaw scripts (otherwise) as the new current
suboperation, and finalizes the session exactly when that enqueue fails. -/
theorem c2_provider_conclusion :
    ∀ (env : TickEnv) (s : VmBackupState) (nid : Nat)
      (s1 : VmBackupState) (nid1 : Nat) (acts1 : List Act)
      (s2 : VmBackupState) (fin : Bool) (nid2 : Nat) (acts2 : List Act),
      tickCheckOp env { s with timerEvent := none } nid =
        TickOpPhase.continueDrain s1 nid1 acts1 →
      tickDrain env s1 nid1 = TickDrainPhase.drained s2 fin nid2 acts2 →
      s2.syncProviderRunning = true →
      (s2.snapshotDone || s2.syncProviderFailed || s2.clientAborted) = true →
      ((env.scriptStartOk = true →
          ∃ s', (VmBackupAsyncCallback env s nid).1 = some s' ∧
            s'.syncProviderRunning = false ∧
            s'.callback = none ∧
            s'.currentOp = some (if s2.syncProviderFailed || s2.clientAborted
              then VmBackupScriptType.freezeFail else VmBackupScriptType.thaw)) ∧
       (env.scriptStartOk = false → (VmBackupAsyncCallback env s nid).1 = none)) := by
  intro env s nid s1 nid1 acts1 s2 fin nid2 acts2 h1 h2 hrun hflag
  have hcb : s2.callback = none :=
    tickDrain_callback_none env s1 nid1 s2 fin nid2 acts2 h2
  unfold VmBackupAsyncCallback
  dsimp only
  rw [h1]
  dsimp only
  rw [h2]
  dsimp only
  have hcond : (s2.syncProviderRunning &&
      (s2.snapshotDone || s2.syncProviderFailed || s2.clientAborted) &&
      s2.callback.isNone) = true := by
    rw [hrun, hflag, hcb]
    rfl
  rw [hcond, if_pos rfl]
  constructor
  · intro hok
    rw [hok]
    exact ⟨_, rfl, rfl, rfl, rfl⟩
  · intro hbad
    rw [hbad]
    rfl

/-- A state with the provider running and snapshot-done already received. -/
def c2s : VmBackupState :=
  { initialBackupState with syncProviderRunning := true, snapshotDone := true }

/-- Witness for C2: a tick at `c2s` (no in-flight operation, no callback)
concludes the provider and enqueues the thaw scripts. -/
theorem c2_witness :
    ∃ s', (VmBackupAsyncCallback ⟨VmBackupOpStatus.pending, true, true⟩ c2s 0).1 =
        some s' ∧
      s'.syncProviderRunning = false ∧
      s'.callback = none ∧
      s'.currentOp = some VmBackupScriptType.thaw :=
  (c2_provider_conclusion ⟨VmBackupOpStatus.pending, true, true⟩ c2s 0 _ 0 []
    _ false 0 [] rfl rfl rfl rfl).1 rfl

/-! ### C8 -/

/-- `VmBackupStartScripts` never changes the poll period. -/
theorem startScripts_pollPeriod :
    ∀ (ok : Bool) (ty : VmBackupScriptType) (cb : Option Callback)
      (s : VmBackupState) (nid : Nat),
      ((VmBackupStartScripts ok ty cb s nid).2.1).pollPeriod = s.pollPeriod := by
  intro ok ty cb s nid
  unfold VmBackupStartScripts
  split <;> rfl

/-- C8 (amended): the poll period is set to 100 at session creation, and on
the tick where the sync provider concludes it is set to 100 again — the
post-provider poll period equals the initial one instead of being strictly
slower. -/
theorem c8_poll_period_constant :
    (∀ (env : StartEnv) (nid : Nat) (s0 : VmBackupState),
        (VmBackupStart env none nid).2.1 = some s0 → s0.pollPeriod = 100) ∧
    (∀ (env : TickEnv) (s : VmBackupState) (nid : Nat)
       (s1 : VmBackupState) (nid1 : Nat) (acts1 : List Act)
       (s2 : VmBackupState) (fin : Bool) (nid2 : Nat) (acts2 : List Act)
       (s' : VmBackupState),
        tickCheckOp env { s with timerEvent := none } nid =
          TickOpPhase.continueDrain s1 nid1 acts1 →
        tickDrain env s1 nid1 = TickDrainPhase.drained s2 fin nid2 acts2 →
        s2.syncProviderRunning = true →
        (s2.snapshotDone || s2.syncProviderFailed || s2.clientAborted) = true →
        (VmBackupAsyncCallback env s nid).1 = some s' →
        s'.pollPeriod = 100) := by
  constructor
  · intro env nid s0 h
    unfold VmBackupStart at h
    dsimp only at h
    split at h
    · exact absurd h (by simp)
    · unfold VmBackupStartScripts at h
      cases hok : env.scriptStartOk with
      | true =>
        rw [hok] at h
        dsimp only at h
        rw [if_pos rfl] at h
        dsimp only at h
        cases h
        rfl
      | false =>
        rw [hok] at h
        simp at h
  · intro env s nid s1 nid1 acts1 s2 fin nid2 acts2 s' h1 h2 hrun hflag hres
    have hcb : s2.callback = none :=
      tickDrain_callback_none env s1 nid1 s2 fin nid2 acts2 h2
    unfold VmBackupAsyncCallback at hres
    dsimp only at hres
    rw [h1] at hres
    dsimp only at hres
    rw [h2] at hres
    dsimp only at hres
    have hcond : (s2.syncProviderRunning &&
        (s2.snapshotDone || s2.syncProviderFailed || s2.clientAborted) &&
        s2.callback.isNone) = true := by
      rw [hrun, hflag, hcb]
      rfl
    rw [hcond, if_pos rfl] at hres
    cases hok : env.scriptStartOk with
    | true =>
      rw [hok] at hres
      cases hres
      rfl
    | false =>
      rw [hok] at hres
      exact absurd hres (by simp [VmBackupStartScripts, tickExit])

/-- Counterexample for C8 as stated: the initial poll period is 100 and the
poll period after the provider-conclusion tick is also 100, so the
post-provider poll period is not strictly greater than the initial one. -/
theorem c8_counterexample :
    postStartState.pollPeriod = 100 ∧
    ((VmBackupAsyncCallback ⟨VmBackupOpStatus.pending, true, true⟩ c2s 0).1).map
        VmBackupState.pollPeriod = some 100 ∧
    ¬ (100 > 100) :=
  ⟨rfl, rfl, by decide⟩

/-- Witness for C8's amended theorem: session creation under `startEnvOk`
and the provider-conclusion tick at `c2s` both yield poll period 100. -/
theorem c8_witness :
    postStartState.pollPeriod = 100 ∧
    (((VmBackupAsyncCallback ⟨VmBackupOpStatus.pending, true, true⟩ c2s 0).1).getD
        initialBackupState).pollPeriod = 100 :=
  ⟨c8_poll_period_constant.1 startEnvOk 0 postStartState rfl,
   c8_poll_period_constant.2 ⟨VmBackupOpStatus.pending, true, true⟩ c2s 0 _ 0 []
     _ false 0 [] _ rfl rfl rfl rfl rfl⟩

/-! ### C6 -/

/-- C6 (amended): on a poll tick whose current suboperation reports failure,
the tick emits an `UnexpectedError` event naming the failed step, releases
the suboperation and clears the handle; then, if the sync provider is not
yet running and a script set exists, it enqueues freeze-fail scripts as a
new suboperation with no continuation callback — the failure event preceding
the enqueue — marking for finalize only if that enqueue itself fails;
otherwise the tick does not finalize: it leaves the session alive with no
current suboperation and reschedules the next poll tick. -/
theorem c6_failed_op_handling :
    ∀ (env : TickEnv) (s : VmBackupState) (nid : Nat) (op : VmBackupScriptType),
      s.currentOp = some op →
      env.opStatus = VmBackupOpStatus.error →
      (Act.emit EventName.requestorError unexpectedErrorCode
          ("Asynchronous operation failed: " ++ s.currentOpName ++ "\n") ∈
        (VmBackupAsyncCallback env s nid).2.2) ∧
      (Act.opRelease ∈ (VmBackupAsyncCallback env s nid).2.2) ∧
      (s.syncProviderRunning = false → s.scripts = true →
        (env.scriptStartOk = true →
          (∃ s', (VmBackupAsyncCallback env s nid).1 = some s' ∧
            s'.currentOp = some VmBackupScriptType.freezeFail ∧
            s'.callback = none) ∧
          (∃ l1 l2, (VmBackupAsyncCallback env s nid).2.2 =
              l1 ++ Act.scriptOpStart VmBackupScriptType.freezeFail :: l2 ∧
            Act.emit EventName.requestorError unexpectedErrorCode
              ("Asynchronous operation failed: " ++ s.currentOpName ++ "\n") ∈ l1)) ∧
        (env.scriptStartOk = false →
          (VmBackupAsyncCallback env s nid).1 = none)) ∧
      (s.syncProviderRunning = true ∨ s.scripts = false →
        ∃ s', (VmBackupAsyncCallback env s nid).1 = some s' ∧
          s'.currentOp = none) := by
  intro env s nid op hop hst
  refine ⟨?_, ?_, ?_, ?_⟩
  · cases hka : s.keepAlive <;> cases hrun : s.syncProviderRunning <;>
      cases hscr : s.scripts <;> cases hok : env.scriptStartOk <;>
      simp [VmBackupAsyncCallback, tickCheckOp, tickExit, VmBackupStartScripts,
        VmBackupSendEvent, VmBackupFinalize, hop, hst, hka, hrun, hscr, hok]
  · cases hka : s.keepAlive <;> cases hrun : s.syncProviderRunning <;>
      cases hscr : s.scripts <;> cases hok : env.scriptStartOk <;>
      simp [VmBackupAsyncCallback, tickCheckOp, tickExit, VmBackupStartScripts,
        VmBackupSendEvent, VmBackupFinalize, hop, hst, hka, hrun, hscr, hok]
  · intro hrun0 hscr0
    constructor
    · intro hok0
      constructor
      · cases hka : s.keepAlive <;>
          simp [VmBackupAsyncCallback, tickCheckOp, tickExit, VmBackupStartScripts,
            VmBackupSendEvent, hop, hst, hka, hrun0, hscr0, hok0]
      · cases hka : s.keepAlive with
        | none =>
          refine ⟨[Act.emit EventName.requestorError unexpectedErrorCode
              ("Asynchronous operation failed: " ++ s.currentOpName ++ "\n"),
              Act.scheduleKeepAlive nid, Act.opRelease],
            [Act.schedulePollTimer (nid + 1) s.pollPeriod], ?_, ?_⟩
          · simp [VmBackupAsyncCallback, tickCheckOp, tickExit, VmBackupStartScripts,
              VmBackupSendEvent, hop, hst, hka, hrun0, hscr0, hok0]
          · simp
        | some t =>
          refine ⟨[Act.cancelKeepAlive t,
              Act.emit EventName.requestorError unexpectedErrorCode
                ("Asynchronous operation failed: " ++ s.currentOpName ++ "\n"),
              Act.scheduleKeepAlive nid, Act.opRelease],
            [Act.schedulePollTimer (nid + 1) s.pollPeriod], ?_, ?_⟩
          · simp [VmBackupAsyncCallback, tickCheckOp, tickExit, VmBackupStartScripts,
              VmBackupSendEvent, hop, hst, hka, hrun0, hscr0, hok0]
          · simp
    · intro hok0
      cases hka : s.keepAlive <;>
        simp [VmBackupAsyncCallback, tickCheckOp, tickExit, VmBackupStartScripts,
          VmBackupSendEvent, VmBackupFinalize, hop, hst, hka, hrun0, hscr0, hok0]
  · intro hor
    rcases hor with hrun1 | hscr1
    · cases hka : s.keepAlive <;>
        simp [VmBackupAsyncCallback, tickCheckOp, tickExit, VmBackupStartScripts,
          VmBackupSendEvent, hop, hst, hka, hrun1]
    · cases hka : s.keepAlive <;> cases hrun : s.syncProviderRunning <;>
        simp [VmBackupAsyncCallback, tickCheckOp, tickExit, VmBackupStartScripts,
          VmBackupSendEvent, hop, hst, hka, hscr1, hrun]

/-- Counterexample for C6 as stated: at the post-start state no script set
exists (`scripts` is NULL), so on an operation-failure tick the claim
requires the session to be marked for finalize; the code instead leaves the
session alive (no `RequestorDone` is emitted) and reschedules. -/
theorem c6_counterexample :
    postStartState.currentOp = some VmBackupScriptType.freeze ∧
    postStartState.syncProviderRunning = false ∧
    postStartState.scripts = false ∧
    (VmBackupAsyncCallback ⟨VmBackupOpStatus.error, true, true⟩ postStartState 2).1 ≠
      none ∧
    countEvent EventName.requestorDone
      (VmBackupAsyncCallback ⟨VmBackupOpStatus.error, true, true⟩ postStartState 2).2.2 =
      0 := by
  refine ⟨rfl, rfl, rfl, ?_, rfl⟩
  decide

/-- A freeze-failure state with a script set present. -/
def c6sW : VmBackupState :=
  { initialBackupState with
    currentOp := some VmBackupScriptType.freeze
    currentOpName := "VmBackupOnFreeze"
    scripts := true }

/-- Witness for C6's amended theorem: a failed freeze operation with a
script set present enqueues the freeze-fail scripts after the error event. -/
theorem c6_witness :
    (∃ s', (VmBackupAsyncCallback ⟨VmBackupOpStatus.error, true, true⟩ c6sW 0).1 =
        some s' ∧
      s'.currentOp = some VmBackupScriptType.freezeFail ∧
      s'.callback = none) ∧
    (∃ l1 l2, (VmBackupAsyncCallback ⟨VmBackupOpStatus.error, true, true⟩ c6sW 0).2.2 =
        l1 ++ Act.scriptOpStart VmBackupScriptType.freezeFail :: l2 ∧
      Act.emit EventName.requestorError unexpectedErrorCode
        ("Asynchronous operation failed: " ++ c6sW.currentOpName ++ "\n") ∈ l1) :=
  ((c6_failed_op_handling ⟨VmBackupOpStatus.error, true, true⟩ c6sW 0
      VmBackupScriptType.freeze rfl rfl).2.2.1 rfl rfl).1 rfl

/-! ### C5 -/

/-- The current-operation check preserves the three terminal-condition flags
and the provider-running flag. -/
theorem tickCheckOp_flags :
    ∀ (env : TickEnv) (s : VmBackupState) (nid : Nat),
      (∀ s1 fin nid1 acts1,
        tickCheckOp env s nid = TickOpPhase.exitNow s1 fin nid1 acts1 →
        s1.syncProviderFailed = s.syncProviderFailed ∧
        s1.clientAborted = s.clientAborted ∧
        s1.snapshotDone = s.snapshotDone ∧
        s1.syncProviderRunning = s.syncProviderRunning) ∧
      (∀ s1 nid1 acts1,
        tickCheckOp env s nid = TickOpPhase.continueDrain s1 nid1 acts1 →
        s1.syncProviderFailed = s.syncProviderFailed ∧
        s1.clientAborted = s.clientAborted ∧
        s1.snapshotDone = s.snapshotDone ∧
        s1.syncProviderRunning = s.syncProviderRunning) := by
  intro env s nid
  constructor
  · intro s1 fin nid1 acts1 h
    unfold tickCheckOp at h
    split at h
    · cases h
    · split at h
      · cases h; exact ⟨rfl, rfl, rfl, rfl⟩
      · cases h
      · dsimp only at h
        split at h
        · unfold VmBackupStartScripts at h
          split at h
          · cases h; exact ⟨rfl, rfl, rfl, rfl⟩
          · cases h; exact ⟨rfl, rfl, rfl, rfl⟩
        · cases h; exact ⟨rfl, rfl, rfl, rfl⟩
  · intro s1 nid1 acts1 h
    unfold tickCheckOp at h
    split at h
    · cases h; exact ⟨rfl, rfl, rfl, rfl⟩
    · split at h
      · cases h
      · cases h; exact ⟨rfl, rfl, rfl, rfl⟩
      · dsimp only at h
        split at h
        · unfold VmBackupStartScripts at h
          split at h
          · cases h
          · cases h
        · cases h

/-- The drain loop preserves `clientAborted` and `snapshotDone`; on the
suspend exit it also preserves `syncProviderFailed`, and on a completed
drain `syncProviderFailed` is either preserved or equal to the (preserved
within the branch) provider-running flag, matching the assignment
`syncProviderFailed := syncProviderRunning` on a false-returning callback. -/
theorem tickDrain_flags :
    ∀ (env : TickEnv) (s : VmBackupState) (nid : Nat),
      (∀ s2 nid2 acts2,
        tickDrain env s nid = TickDrainPhase.suspendExit s2 nid2 acts2 →
        s2.syncProviderFailed = s.syncProviderFailed ∧
        s2.clientAborted = s.clientAborted ∧
        s2.snapshotDone = s.snapshotDone) ∧
      (∀ s2 fin nid2 acts2,
        tickDrain env s nid = TickDrainPhase.drained s2 fin nid2 acts2 →
        s2.clientAborted = s.clientAborted ∧
        s2.snapshotDone = s.snapshotDone ∧
        (s2.syncProviderFailed = s.syncProviderFailed ∨
         s2.syncProviderFailed = s2.syncProviderRunning)) := by
  intro env s nid
  constructor
  · intro s2 nid2 acts2 h
    unfold tickDrain at h
    split at h
    · cases h
    · dsimp only at h
      unfold VmBackupEnableSync at h
      split at h
      · dsimp only at h
        rw [if_pos rfl] at h
        split at h
        · cases h; exact ⟨rfl, rfl, rfl⟩
        · cases h
      · dsimp only at h
        rw [if_neg (by simp)] at h
        cases h
  · intro s2 fin nid2 acts2 h
    unfold tickDrain at h
    split at h
    · cases h; exact ⟨rfl, rfl, Or.inl rfl⟩
    · dsimp only at h
      unfold VmBackupEnableSync at h
      split at h
      · dsimp only at h
        rw [if_pos rfl] at h
        split at h
        · cases h
        · cases h; exact ⟨rfl, rfl, Or.inl rfl⟩
      · dsimp only at h
        rw [if_neg (by simp)] at h
        cases h
        exact ⟨rfl, rfl, Or.inr rfl⟩

/-- C5: within one session the flags `syncProviderFailed`, `clientAborted`
and `snapshotDone` are monotonic — whenever an operation (poll tick, Abort,
SnapshotDone) leaves the session alive, a flag that was true before the
operation is still true after it.  (The transient assignment
`syncProviderFailed := syncProviderRunning` inside the drain loop can lower
the flag only on executions that finalize the session in the same tick, so
no surviving session ever observes a reset flag.) -/
theorem c5_flags_monotone :
    ∀ (c : Cmd) (s : VmBackupState) (nid : Nat) (s' : VmBackupState),
      (stepCmd c s nid).1 = some s' →
      (s.syncProviderFailed = true → s'.syncProviderFailed = true) ∧
      (s.clientAborted = true → s'.clientAborted = true) ∧
      (s.snapshotDone = true → s'.snapshotDone = true) := by
  intro c s nid s' h
  cases c with
  | abortCmd =>
    cases h
    exact ⟨fun a => a, fun _ => rfl, fun a => a⟩
  | snapDone ok =>
    cases ok with
    | true =>
      cases h
      exact ⟨fun a => a, fun a => a, fun _ => rfl⟩
    | false =>
      cases h
      exact ⟨fun _ => rfl, fun a => a, fun a => a⟩
  | tick env =>
    simp only [stepCmd] at h
    unfold VmBackupAsyncCallback at h
    dsimp only at h
    cases hchk : tickCheckOp env { s with timerEvent := none } nid with
    | exitNow s1 fin nid1 acts1 =>
      rw [hchk] at h
      dsimp only at h
      cases fin with
      | true => exact absurd h (by simp [tickExit])
      | false =>
        obtain ⟨hf1, ha1, hsn1, _⟩ :=
          (tickCheckOp_flags env { s with timerEvent := none } nid).1
            s1 false nid1 acts1 hchk
        cases h
        refine ⟨fun a => ?_, fun a => ?_, fun a => ?_⟩
        · show s1.syncProviderFailed = true
          rw [hf1]; exact a
        · show s1.clientAborted = true
          rw [ha1]; exact a
        · show s1.snapshotDone = true
          rw [hsn1]; exact a
    | continueDrain s1 nid1 acts1 =>
      rw [hchk] at h
      dsimp only at h
      obtain ⟨hf1, ha1, hsn1, hr1⟩ :=
        (tickCheckOp_flags env { s with timerEvent := none } nid).2
          s1 nid1 acts1 hchk
      cases hdr : tickDrain env s1 nid1 with
      | suspendExit s2 nid2 acts2 =>
        rw [hdr] at h
        dsimp only at h
        obtain ⟨hf2, ha2, hsn2⟩ := (tickDrain_flags env s1 nid1).1 s2 nid2 acts2 hdr
        cases h
        refine ⟨fun a => ?_, fun a => ?_, fun a => ?_⟩
        · show s2.syncProviderFailed = true
          rw [hf2, hf1]; exact a
        · show s2.clientAborted = true
          rw [ha2, ha1]; exact a
        · show s2.snapshotDone = true
          rw [hsn2, hsn1]; exact a
      | drained s2 fin2 nid2 acts2 =>
        rw [hdr] at h
        dsimp only at h
        have hcb : s2.callback = none :=
          tickDrain_callback_none env s1 nid1 s2 fin2 nid2 acts2 hdr
        obtain ⟨ha2, hsn2, hfor⟩ :=
          (tickDrain_flags env s1 nid1).2 s2 fin2 nid2 acts2 hdr
        cases hcond : (s2.syncProviderRunning &&
            (s2.snapshotDone || s2.syncProviderFailed || s2.clientAborted) &&
            s2.callback.isNone) with
        | true =>
          rw [hcond, if_pos rfl] at h
          have hrun2 : s2.syncProviderRunning = true := by
            have h1' := hcond
            simp only [Bool.and_eq_true] at h1'
            exact h1'.1.1
          cases hok : env.scriptStartOk with
          | true =>
            rw [hok] at h
            cases h
            refine ⟨fun a => ?_, fun a => ?_, fun a => ?_⟩
            · show s2.syncProviderFailed = true
              rcases hfor with hpres | hrun'
              · rw [hpres, hf1]; exact a
              · rw [hrun']; exact hrun2
            · show s2.clientAborted = true
              rw [ha2, ha1]; exact a
            · show s2.snapshotDone = true
              rw [hsn2, hsn1]; exact a
          | false =>
            rw [hok] at h
            exact absurd h (by simp [VmBackupStartScripts, tickExit])
        | false =>
          rw [hcond] at h
          rw [if_neg (by simp)] at h
          cases hrun2 : s2.syncProviderRunning with
          | false =>
            rw [hrun2, hcb] at h
            exact absurd h (by simp [tickExit])
          | true =>
            rw [hrun2] at h
            cases h
            refine ⟨fun a => ?_, fun a => ?_, fun a => ?_⟩
            · show s2.syncProviderFailed = true
              rcases hfor with hpres | hrun'
              · rw [hpres, hf1]; exact a
              · rw [hrun']; exact hrun2
            · show s2.clientAborted = true
              rw [ha2, ha1]; exact a
            · show s2.snapshotDone = true
              rw [hsn2, hsn1]; exact a

/-- Witness for C5 at a concrete input: an Abort delivered at `c2s` (where
`snapshotDone` is already true) preserves all three flags. -/
theorem c5_witness :
    (c2s.syncProviderFailed = true →
      ((stepCmd Cmd.abortCmd c2s 0).1.getD initialBackupState).syncProviderFailed = true) ∧
    (c2s.clientAborted = true →
      ((stepCmd Cmd.abortCmd c2s 0).1.getD initialBackupState).clientAborted = true) ∧
    (c2s.snapshotDone = true →
      ((stepCmd Cmd.abortCmd c2s 0).1.getD initialBackupState).snapshotDone = true) :=
  c5_flags_monotone Cmd.abortCmd c2s 0 _ rfl

/-! ### C1 — event-trace lemmas -/

/-- Emitted event names distribute over trace concatenation. -/
theorem emittedNames_append :
    ∀ (l1 l2 : List Act),
      emittedNames (l1 ++ l2) = emittedNames l1 ++ emittedNames l2 := by
  intro l1 l2
  unfold emittedNames
  exact List.filterMap_append l1 l2 _

/-- Event counts add over trace concatenation. -/
theorem countEvent_append :
    ∀ (n : EventName) (l1 l2 : List Act),
      countEvent n (l1 ++ l2) = countEvent n l1 + countEvent n l2 := by
  intro n l1 l2
  unfold countEvent
  rw [emittedNames_append, List.count_append]

/-- A trace whose emitted names do not include `n` has count zero for `n`. -/
theorem countEvent_eq_zero :
    ∀ (n : EventName) (l : List Act), n ∉ emittedNames l → countEvent n l = 0 := by
  intro n l h
  unfold countEvent
  exact List.count_eq_zero.mpr h

/-- The last element of an appended list is that of the right part when the
right part has one. -/
theorem getLast?_append_right :
    ∀ (l1 l2 : List EventName) (b : EventName),
      l2.getLast? = some b → (l1 ++ l2).getLast? = some b := by
  intro l1 l2 b h
  rw [List.getLast?_append, h]
  rfl

/-- `VmBackupSendEvent` emits exactly the given event. -/
theorem sendEvent_emittedNames :
    ∀ (s : VmBackupState) (nid : Nat) (name : EventName) (code : Nat) (desc : String),
      emittedNames (VmBackupSendEvent s nid name code desc).2.2 = [name] := by
  intro s nid name code desc
  cases h : s.keepAlive <;> simp [VmBackupSendEvent, emittedNames, h]

/-- `VmBackupFinalize` emits exactly one `RequestorDone`. -/
theorem finalize_emittedNames :
    ∀ (s : VmBackupState) (nid : Nat),
      emittedNames (VmBackupFinalize s nid).2 = [EventName.requestorDone] := by
  intro s nid
  cases h1 : s.currentOp <;> cases h2 : s.keepAlive <;> cases h3 : s.timerEvent <;>
    simp [VmBackupFinalize, VmBackupSendEvent, emittedNames, h1, h2, h3]

/-- `VmBackupStartScripts` emits nothing on success and one script-error
event on failure. -/
theorem startScripts_emittedNames :
    ∀ (ok : Bool) (ty : VmBackupScriptType) (cb : Option Callback)
      (s : VmBackupState) (nid : Nat),
      emittedNames (VmBackupStartScripts ok ty cb s nid).2.2.2 =
        if ok then [] else [EventName.requestorError] := by
  intro ok ty cb s nid
  cases ok <;> cases h : s.keepAlive <;>
    simp [VmBackupStartScripts, VmBackupSendEvent, emittedNames, h]

/-- `VmBackupEnableSync` emits nothing on success and one sync-error event
on failure. -/
theorem enableSync_emittedNames :
    ∀ (ok : Bool) (s : VmBackupState) (nid : Nat),
      emittedNames (VmBackupEnableSync ok s nid).2.2.2 =
        if ok then [] else [EventName.requestorError] := by
  intro ok s nid
  cases ok <;> cases h : s.keepAlive <;>
    simp [VmBackupEnableSync, VmBackupSendEvent, emittedNames, h]

/-- Non-emitting singleton traces. -/
theorem emittedNames_opRelease : emittedNames [Act.opRelease] = [] := rfl

/-- Non-emitting singleton traces (script starts). -/
theorem emittedNames_scriptOpStart :
    ∀ ty, emittedNames [Act.scriptOpStart ty] = [] := fun _ => rfl

/-- Non-emitting singleton traces (poll-timer arms). -/
theorem emittedNames_schedulePoll :
    ∀ i p, emittedNames [Act.schedulePollTimer i p] = [] := fun _ _ => rfl

/-- A provider-start action emits nothing. -/
theorem emittedNames_providerStart_cons :
    ∀ l, emittedNames (Act.providerStart :: l) = emittedNames l := fun _ => rfl

/-- The current-operation check never emits a `RequestorDone`. -/
theorem tickCheckOp_emitted :
    ∀ (env : TickEnv) (s : VmBackupState) (nid : Nat),
      (∀ s1 fin nid1 acts1,
        tickCheckOp env s nid = TickOpPhase.exitNow s1 fin nid1 acts1 →
        EventName.requestorDone ∉ emittedNames acts1) ∧
      (∀ s1 nid1 acts1,
        tickCheckOp env s nid = TickOpPhase.continueDrain s1 nid1 acts1 →
        EventName.requestorDone ∉ emittedNames acts1) := by
  intro env s nid
  constructor
  · intro s1 fin nid1 acts1 h
    unfold tickCheckOp at h
    split at h
    · cases h
    · split at h
      · cases h; simp [emittedNames]
      · cases h
      · dsimp only at h
        split at h
        · unfold VmBackupStartScripts at h
          split at h
          · cases h
            simp only [emittedNames_append, sendEvent_emittedNames,
              emittedNames_opRelease, emittedNames_scriptOpStart]
            simp
          · cases h
            simp only [emittedNames_append, sendEvent_emittedNames,
              emittedNames_opRelease]
            simp
        · cases h
          simp only [emittedNames_append, sendEvent_emittedNames,
            emittedNames_opRelease]
          simp
  · intro s1 nid1 acts1 h
    unfold tickCheckOp at h
    split at h
    · cases h; simp [emittedNames]
    · split at h
      · cases h
      · cases h; simp [emittedNames]
      · dsimp only at h
        split at h
        · unfold VmBackupStartScripts at h
          split at h
          · cases h
          · cases h
        · cases h

/-- The drain loop never emits a `RequestorDone`. -/
theorem tickDrain_emitted :
    ∀ (env : TickEnv) (s : VmBackupState) (nid : Nat),
      (∀ s2 nid2 acts2,
        tickDrain env s nid = TickDrainPhase.suspendExit s2 nid2 acts2 →
        EventName.requestorDone ∉ emittedNames acts2) ∧
      (∀ s2 fin nid2 acts2,
        tickDrain env s nid = TickDrainPhase.drained s2 fin nid2 acts2 →
        EventName.requestorDone ∉ emittedNames acts2) := by
  intro env s nid
  constructor
  · intro s2 nid2 acts2 h
    unfold tickDrain at h
    split at h
    · cases h
    · dsimp only at h
      unfold VmBackupEnableSync at h
      split at h
      · dsimp only at h
        rw [if_pos rfl] at h
        split at h
        · cases h; simp [emittedNames]
        · cases h
      · dsimp only at h
        rw [if_neg (by simp)] at h
        cases h
  · intro s2 fin nid2 acts2 h
    unfold tickDrain at h
    split at h
    · cases h; simp [emittedNames]
    · dsimp only at h
      unfold VmBackupEnableSync at h
      split at h
      · dsimp only at h
        rw [if_pos rfl] at h
        split at h
        · cases h
        · cases h; simp [emittedNames]
      · dsimp only at h
        rw [if_neg (by simp)] at h
        cases h
        simp only [emittedNames_providerStart_cons, sendEvent_emittedNames]
        simp

/-- The `exit` label of the tick: a finalizing exit appends exactly one
`RequestorDone` at the end of the emitted events, and a rescheduling exit
emits nothing further. -/
theorem tickExit_emitted :
    ∀ (s : VmBackupState) (fin : Bool) (nid : Nat) (acts : List Act),
      EventName.requestorDone ∉ emittedNames acts →
      (((tickExit s fin nid acts).1 = none →
        ∃ pre, emittedNames (tickExit s fin nid acts).2.2 =
            pre ++ [EventName.requestorDone] ∧
          EventName.requestorDone ∉ pre) ∧
       ((tickExit s fin nid acts).1 ≠ none →
        EventName.requestorDone ∉ emittedNames (tickExit s fin nid acts).2.2)) := by
  intro s fin nid acts hpre
  cases fin with
  | true =>
    constructor
    · intro _
      refine ⟨emittedNames acts, ?_, hpre⟩
      simp [tickExit, emittedNames_append, finalize_emittedNames]
    · intro hne
      exact absurd rfl hne
  | false =>
    constructor
    · intro h
      exact absurd h (by simp [tickExit])
    · intro _
      simpa [tickExit, emittedNames_append, emittedNames_schedulePoll] using hpre

/-- Per-stimulus event accounting: a step that destroys the session emits
exactly one `RequestorDone`, as its last event; a step that leaves the
session alive emits no `RequestorDone`; the Abort step emits exactly one
`RequestorAbort`. -/
theorem stepCmd_emitted :
    ∀ (c : Cmd) (s : VmBackupState) (nid : Nat),
      ((stepCmd c s nid).1 = none →
        ∃ pre, emittedNames (stepCmd c s nid).2.2 =
            pre ++ [EventName.requestorDone] ∧
          EventName.requestorDone ∉ pre) ∧
      ((stepCmd c s nid).1 ≠ none →
        EventName.requestorDone ∉ emittedNames (stepCmd c s nid).2.2) ∧
      (c = Cmd.abortCmd →
        countEvent EventName.requestorAbort (stepCmd c s nid).2.2 = 1) := by
  intro c s nid
  cases c with
  | abortCmd =>
    refine ⟨?_, fun _ => ?_, fun _ => ?_⟩
    · intro h
      simp [stepCmd, VmBackupAbort] at h
    · cases hop : s.currentOp <;> cases hr : s.syncProviderRunning <;>
        cases hka : s.keepAlive <;>
        simp [stepCmd, VmBackupAbort, VmBackupSendEvent, emittedNames,
          hop, hr, hka]
    · cases hop : s.currentOp <;> cases hr : s.syncProviderRunning <;>
        cases hka : s.keepAlive <;>
        simp [stepCmd, VmBackupAbort, VmBackupSendEvent, emittedNames,
          countEvent, hop, hr, hka]
  | snapDone ok =>
    refine ⟨?_, fun _ => ?_, fun hc => Cmd.noConfusion hc⟩
    · intro h
      cases ok <;> simp [stepCmd, VmBackupSnapshotDone, VmBackupSendEvent] at h
    · cases ok <;> cases hka : s.keepAlive <;>
        simp [stepCmd, VmBackupSnapshotDone, VmBackupSendEvent, emittedNames, hka]
  | tick env =>
    have H : ((VmBackupAsyncCallback env s nid).1 = none →
          ∃ pre, emittedNames (VmBackupAsyncCallback env s nid).2.2 =
              pre ++ [EventName.requestorDone] ∧
            EventName.requestorDone ∉ pre) ∧
        ((VmBackupAsyncCallback env s nid).1 ≠ none →
          EventName.requestorDone ∉
            emittedNames (VmBackupAsyncCallback env s nid).2.2) := by
      unfold VmBackupAsyncCallback
      dsimp only
      cases hchk : tickCheckOp env { s with timerEvent := none } nid with
      | exitNow s1 fin nid1 acts1 =>
        dsimp only
        exact tickExit_emitted s1 fin nid1 acts1
          ((tickCheckOp_emitted env { s with timerEvent := none } nid).1
            s1 fin nid1 acts1 hchk)
      | continueDrain s1 nid1 acts1 =>
        dsimp only
        have hpre1 := (tickCheckOp_emitted env { s with timerEvent := none } nid).2
          s1 nid1 acts1 hchk
        cases hdr : tickDrain env s1 nid1 with
        | suspendExit s2 nid2 acts2 =>
          dsimp only
          refine tickExit_emitted s2 false nid2 (acts1 ++ acts2) ?_
          have hpre2 := (tickDrain_emitted env s1 nid1).1 s2 nid2 acts2 hdr
          intro hmem
          rw [emittedNames_append] at hmem
          rcases List.mem_append.mp hmem with hm | hm
          · exact hpre1 hm
          · exact hpre2 hm
        | drained s2 fin2 nid2 acts2 =>
          dsimp only
          have hpre2 := (tickDrain_emitted env s1 nid1).2 s2 fin2 nid2 acts2 hdr
          cases hcond : (s2.syncProviderRunning &&
              (s2.snapshotDone || s2.syncProviderFailed || s2.clientAborted) &&
              s2.callback.isNone) with
          | true =>
            rw [if_pos rfl]
            refine tickExit_emitted _ _ _ _ ?_
            intro hmem
            rw [emittedNames_append] at hmem
            rcases List.mem_append.mp hmem with hm | hm
            · rw [emittedNames_append] at hm
              rcases List.mem_append.mp hm with hm2 | hm2
              · exact hpre1 hm2
              · exact hpre2 hm2
            · revert hm
              rw [startScripts_emittedNames]
              cases env.scriptStartOk <;> simp
          | false =>
            rw [if_neg (by simp)]
            refine tickExit_emitted _ _ _ _ ?_
            intro hmem
            rw [emittedNames_append] at hmem
            rcases List.mem_append.mp hmem with hm | hm
            · exact hpre1 hm
            · exact hpre2 hm
    exact ⟨H.1, H.2, fun hc => Cmd.noConfusion hc⟩

/-- Unfolding equation for `runCmds` on a nonempty command list. -/
theorem runCmds_cons :
    ∀ (c : Cmd) (cs : List Cmd) (s : VmBackupState) (nid : Nat),
      runCmds (c :: cs) s nid =
        match stepCmd c s nid with
        | (none, nid1, acts) => (none, nid1, acts)
        | (some s1, nid1, acts) =>
          ((runCmds cs s1 nid1).1, (runCmds cs s1 nid1).2.1,
            acts ++ (runCmds cs s1 nid1).2.2) := by
  intro c cs s nid
  rfl

/-- An Abort delivered while the session is alive puts at least one
`RequestorAbort` event into the run's trace. -/
theorem runCmds_abort_emits :
    ∀ (pre post : List Cmd) (s : VmBackupState) (nid : Nat),
      (runCmds pre s nid).1 ≠ none →
      1 ≤ countEvent EventName.requestorAbort
          (runCmds (pre ++ Cmd.abortCmd :: post) s nid).2.2 := by
  intro pre
  induction pre with
  | nil =>
    intro post s nid _
    rw [List.nil_append, runCmds_cons]
    rcases hstep : stepCmd Cmd.abortCmd s nid with ⟨g, nid1, acts⟩
    have hcnt : countEvent EventName.requestorAbort acts = 1 := by
      have h1 := (stepCmd_emitted Cmd.abortCmd s nid).2.2 rfl
      rw [hstep] at h1
      exact h1
    cases g with
    | none =>
      have h1 : (stepCmd Cmd.abortCmd s nid).1 = none := by rw [hstep]
      exact absurd h1 (by simp [stepCmd, VmBackupAbort])
    | some s1 =>
      dsimp only
      rw [countEvent_append, hcnt]
      exact Nat.le_add_right 1 _
  | cons c cs ih =>
    intro post s nid halive
    rw [runCmds_cons] at halive
    rw [List.cons_append, runCmds_cons]
    rcases hstep : stepCmd c s nid with ⟨g, nid1, acts⟩
    cases g with
    | none =>
      rw [hstep] at halive
      dsimp only at halive
      exact absurd rfl halive
    | some s1 =>
      rw [hstep] at halive
      dsimp only at halive ⊢
      rw [countEvent_append]
      have := ih post s1 nid1 halive
      omega

/-- C1 (amended): over any run of stimuli starting from a live session,
exactly one `RequestorDone` is emitted when the session reaches teardown —
and it is the final event of the run — while a session still alive has
emitted none; and whenever an Abort command is delivered while the session
is alive, at least one `RequestorAbort` appears in the trace (the terminal
`RequestorDone` is still emitted at teardown even then). -/
theorem c1_done_exactly_once :
    ∀ (cmds : List Cmd) (s : VmBackupState) (nid : Nat),
      ((runCmds cmds s nid).1 = none →
        countEvent EventName.requestorDone (runCmds cmds s nid).2.2 = 1 ∧
        lastEmitName (runCmds cmds s nid).2.2 = some EventName.requestorDone) ∧
      ((runCmds cmds s nid).1 ≠ none →
        countEvent EventName.requestorDone (runCmds cmds s nid).2.2 = 0) ∧
      (∀ pre post, cmds = pre ++ Cmd.abortCmd :: post →
        (runCmds pre s nid).1 ≠ none →
        1 ≤ countEvent EventName.requestorAbort (runCmds cmds s nid).2.2) := by
  intro cmds
  induction cmds with
  | nil =>
    intro s nid
    refine ⟨?_, fun _ => rfl, ?_⟩
    · intro h
      exact absurd h (by simp [runCmds])
    · intro pre post hc
      exact absurd hc (by simp)
  | cons c cs ih =>
    intro s nid
    refine ⟨?_, ?_, ?_⟩
    · intro h
      rw [runCmds_cons] at h ⊢
      rcases hstep : stepCmd c s nid with ⟨g, nid1, acts⟩
      cases g with
      | none =>
        rw [hstep] at h
        dsimp only at h ⊢
        obtain ⟨pre0, hpe, hnp⟩ := (stepCmd_emitted c s nid).1 (by rw [hstep])
        rw [hstep] at hpe
        dsimp only at hpe
        constructor
        · unfold countEvent
          rw [hpe, List.count_append, List.count_eq_zero.mpr hnp]
          rfl
        · unfold lastEmitName
          rw [hpe]
          exact List.getLast?_concat pre0
      | some s1 =>
        rw [hstep] at h
        dsimp only at h ⊢
        obtain ⟨hcount, hlast⟩ := (ih s1 nid1).1 h
        have hnd : EventName.requestorDone ∉ emittedNames acts := by
          have h2 := (stepCmd_emitted c s nid).2.1 (by rw [hstep]; simp)
          rw [hstep] at h2
          exact h2
        constructor
        · rw [countEvent_append, countEvent_eq_zero _ _ hnd, hcount]
        · unfold lastEmitName
          rw [emittedNames_append]
          exact getLast?_append_right _ _ _ hlast
    · intro hne
      rw [runCmds_cons] at hne ⊢
      rcases hstep : stepCmd c s nid with ⟨g, nid1, acts⟩
      cases g with
      | none =>
        rw [hstep] at hne
        dsimp only at hne
        exact absurd rfl hne
      | some s1 =>
        rw [hstep] at hne
        dsimp only at hne ⊢
        have hnd : EventName.requestorDone ∉ emittedNames acts := by
          have h2 := (stepCmd_emitted c s nid).2.1 (by rw [hstep]; simp)
          rw [hstep] at h2
          exact h2
        rw [countEvent_append, countEvent_eq_zero _ _ hnd,
          (ih s1 nid1).2.1 hne]
    · intro pre post hc halive
      rw [hc]
      exact runCmds_abort_emits pre post s nid halive

/-- Counterexample for C1 as stated: a session is started, aborted, and run
to teardown; the trace holds three terminal events (the `RequestorAbort`
from Abort, a `RequestorError` from the failed provider enable, and the
unconditional `RequestorDone` from finalize), not exactly one, and the final
terminal event is a plain `RequestorDone` despite the abort. -/
theorem c1_counterexample :
    (runCmds [Cmd.abortCmd, Cmd.tick ⟨VmBackupOpStatus.pending, false, true⟩]
        postStartState 2).1 = none ∧
    terminalCount
      (runCmds [Cmd.abortCmd, Cmd.tick ⟨VmBackupOpStatus.pending, false, true⟩]
        postStartState 2).2.2 = 3 ∧
    lastEmitName
      (runCmds [Cmd.abortCmd, Cmd.tick ⟨VmBackupOpStatus.pending, false, true⟩]
        postStartState 2).2.2 = some EventName.requestorDone := by
  exact ⟨rfl, rfl, rfl⟩

/-- Witness for C1's amended theorem on the concrete aborted run: one
`RequestorDone`, emitted last, and at least one `RequestorAbort`. -/
theorem c1_witness :
    (countEvent EventName.requestorDone
        (runCmds [Cmd.abortCmd, Cmd.tick ⟨VmBackupOpStatus.pending, false, true⟩]
          postStartState 2).2.2 = 1 ∧
      lastEmitName
        (runCmds [Cmd.abortCmd, Cmd.tick ⟨VmBackupOpStatus.pending, false, true⟩]
          postStartState 2).2.2 = some EventName.requestorDone) ∧
    1 ≤ countEvent EventName.requestorAbort
        (runCmds [Cmd.abortCmd, Cmd.tick ⟨VmBackupOpStatus.pending, false, true⟩]
          postStartState 2).2.2 :=
  ⟨(c1_done_exactly_once
      [Cmd.abortCmd, Cmd.tick ⟨VmBackupOpStatus.pending, false, true⟩]
      postStartState 2).1 rfl,
   (c1_done_exactly_once
      [Cmd.abortCmd, Cmd.tick ⟨VmBackupOpStatus.pending, false, true⟩]
      postStartState 2).2.2 []
      [Cmd.tick ⟨VmBackupOpStatus.pending, false, true⟩] rfl
      (by simp [runCmds])⟩
